import Mathlib

/-!
Shallow embedding of the vector-processing core of `eis_toolkit`
(`vector_processing/rasterize.py` and
`vector_processing/kriging_interpolation.py`), together with theorems
settling the specification claims about it.

Conventions of the embedding:
* Python floats are modelled as rationals (`ℚ`); the claims under study are
  structural (shapes, keys, control flow, formulas), not about float rounding.
* Stateful behaviour (the in-place update of the caller's geodataframe) is
  modelled by returning the final state of the geodataframe alongside the
  result.
* Fallible functions return `Except PyError`.
-/

deriving instance DecidableEq for Except

namespace EisToolkit

attribute [local semireducible] Rat.add Rat.mul Rat.sub Rat.inv

/-- Modelled from the spec: the error taxonomy.  `eis_toolkit.exceptions` (not
part of the sources under study) provides `EmptyDataFrameException` and
`InvalidParameterValueException`; `valueError` is Python's builtin
`ValueError`, raised by `rasterize_vector` for parameter violations. -/
inductive PyError where
  | emptyDataFrameException (msg : String)
  | invalidParameterValueException (msg : String)
  | valueError (msg : String)
  deriving DecidableEq, Repr

/-- `true` exactly when the result is an `InvalidParameterValueException`. -/
def isInvalidParameterError {α : Type} : Except PyError α → Bool
  | .error (.invalidParameterValueException _) => true
  | _ => false

/-- Base shapes for geometries: a point or an axis-aligned rectangle.  These
are the concrete geometry kinds used to exercise the rasterization pipeline;
both are convex, which makes planar buffering (Minkowski sum with a disk)
representable by a radius. -/
inductive BaseGeometry where
  | point (x y : ℚ)
  | rect (minX minY maxX maxY : ℚ)
  deriving DecidableEq, Repr

/-- A geometry: a convex base shape dilated by a buffer radius. -/
structure Geometry where
  base : BaseGeometry
  bufferRadius : ℚ
  deriving DecidableEq, Repr

/-- Modelled from the spec: `shapely` planar buffering.  For a convex shape
already dilated by radius `r`, buffering by `d` is dilation by `r + d`
(Minkowski sums of disks add radii).  Source: `geom.buffer(buffer_value)` in
`rasterize_vector`. -/
def Geometry.buffer (g : Geometry) (d : ℚ) : Geometry :=
  ⟨g.base, g.bufferRadius + d⟩

/-- Clamp `v` into the interval `[lo, hi]`. -/
def clampQ (v lo hi : ℚ) : ℚ := max lo (min v hi)

/-- Squared Euclidean distance from a point to a base shape. -/
def BaseGeometry.sqDistTo : BaseGeometry → ℚ → ℚ → ℚ
  | .point x y, px, py => (px - x) ^ 2 + (py - y) ^ 2
  | .rect x0 y0 x1 y1, px, py =>
      (px - clampQ px x0 x1) ^ 2 + (py - clampQ py y0 y1) ^ 2

/-- Point-in-geometry test (boundary inclusive): the point is within
`bufferRadius` of the base shape. -/
def Geometry.containsPoint (g : Geometry) (px py : ℚ) : Bool :=
  decide (g.base.sqDistTo px py ≤ g.bufferRadius ^ 2)

/-- Bounding box `(minX, minY, maxX, maxY)` of a base shape. -/
def BaseGeometry.bounds : BaseGeometry → ℚ × ℚ × ℚ × ℚ
  | .point x y => (x, y, x, y)
  | .rect x0 y0 x1 y1 => (x0, y0, x1, y1)

/-- Bounding box of a geometry: the base bounds expanded by the buffer
radius. -/
def Geometry.bounds (g : Geometry) : ℚ × ℚ × ℚ × ℚ :=
  let b := g.base.bounds
  (b.1 - g.bufferRadius, b.2.1 - g.bufferRadius,
   b.2.2.1 + g.bufferRadius, b.2.2.2 + g.bufferRadius)

/-- The representative x-coordinate of a geometry (`geom.x` in the source;
meaningful for point geometries, which is the only use the kriging code
makes of it). -/
def Geometry.x (g : Geometry) : ℚ := g.base.bounds.1

/-- The representative y-coordinate of a geometry (`geom.y` in the source). -/
def Geometry.y (g : Geometry) : ℚ := g.base.bounds.2.1

/-- A `geopandas.GeoDataFrame`: an ordered list of geometries (the `geometry`
column), named numeric attribute columns, and a CRS.  Invariant of the data
model: every attribute column has one entry per geometry (one per row). -/
structure GeoDataFrame where
  geometries : List Geometry
  columns : List (String × List ℚ)
  crs : Option String
  deriving DecidableEq, Repr

/-- `geodataframe.shape[0]`: the number of rows. -/
def GeoDataFrame.numRows (gdf : GeoDataFrame) : ℕ := gdf.geometries.length

/-- `data.empty`: a dataframe with no rows. -/
def GeoDataFrame.empty (gdf : GeoDataFrame) : Bool := gdf.geometries.isEmpty

/-- `c in geodataframe.columns`: the implicit `geometry` column or a named
attribute column. -/
def GeoDataFrame.hasColumn (gdf : GeoDataFrame) (c : String) : Bool :=
  c == "geometry" || gdf.columns.any (fun kv => kv.1 == c)

/-- `geodataframe[c].values` for an attribute column `c`. -/
def GeoDataFrame.getColumn (gdf : GeoDataFrame) (c : String) : List ℚ :=
  ((gdf.columns.find? (fun kv => kv.1 == c)).map Prod.snd).getD []

/-- `geodataframe.total_bounds`: `(min_x, min_y, max_x, max_y)` over all
geometries. -/
def GeoDataFrame.totalBounds (gdf : GeoDataFrame) : ℚ × ℚ × ℚ × ℚ :=
  match gdf.geometries with
  | [] => (0, 0, 0, 0)
  | g :: gs =>
      gs.foldl (fun acc h =>
        let b := h.bounds
        (min acc.1 b.1, min acc.2.1 b.2.1,
         max acc.2.2.1 b.2.2.1, max acc.2.2.2 b.2.2.2)) g.bounds

/-- A `rasterio` affine transform: world coordinates of pixel `(col, row)`
are `(a * col + b * row + c, d * col + e * row + f)`. -/
structure Affine where
  a : ℚ
  b : ℚ
  c : ℚ
  d : ℚ
  e : ℚ
  f : ℚ
  deriving DecidableEq, Repr

/-- Apply an affine transform to fractional pixel coordinates. -/
def Affine.apply (t : Affine) (col row : ℚ) : ℚ × ℚ :=
  (t.a * col + t.b * row + t.c, t.d * col + t.e * row + t.f)

/-- Modelled from the spec: `rasterio.transform.from_bounds`.  A north-up
transform anchored at the west/north corner with pixel sizes
`(east - west) / width` and `(north - south) / height`. -/
def from_bounds (west south east north width height : ℚ) : Affine :=
  ⟨(east - west) / width, 0, west, 0, (south - north) / height, north⟩

/-- Floor of a rational, written explicitly on numerator and denominator. -/
def ratFloor (q : ℚ) : ℤ := Int.fdiv q.num q.den

/-- Python's builtin `round` on a (rational-valued) float: round half to
even. -/
def pythonRound (q : ℚ) : ℤ :=
  let n := ratFloor q
  let frac := q - (n : ℚ)
  if frac < 1 / 2 then n
  else if 1 / 2 < frac then n + 1
  else if n % 2 = 0 then n else n + 1

/-- `numpy.linspace start stop num`: `num` evenly spaced points from `start`
to `stop`, endpoints included (for `num = 1`, just `[start]`). -/
def np_linspace (start stop : ℚ) (num : ℕ) : List ℚ :=
  if num = 0 then []
  else if num = 1 then [start]
  else (List.range num).map
    (fun (i : ℕ) => start + (stop - start) * (i : ℚ) / ((num - 1 : ℕ) : ℚ))

/-- World coordinates of the center of pixel `(row, col)`. -/
def cellCenter (t : Affine) (row col : ℕ) : ℚ × ℚ :=
  t.apply ((col : ℚ) + 1 / 2) ((row : ℚ) + 1 / 2)

/-- Burn a list of geometry–value pairs into one cell: shapes are painted in
list order, each painting the cell when the cell center lies inside it, so a
later shape overwrites an earlier one; an unpainted cell keeps `fill`. -/
def burnCell (shapes : List (Geometry × ℚ)) (fill : ℚ) (p : ℚ × ℚ) : ℚ :=
  shapes.foldl (fun acc gv => if gv.1.containsPoint p.1 p.2 then gv.2 else acc) fill

/-- Modelled from the spec: `rasterio.features.rasterize`.  Produces an array
of shape `out_shape = (rows, cols)`; a pixel is burned with a geometry's
value when the pixel center lies inside the geometry, geometries are burned
in list order (later ones overwrite earlier ones), and pixels covered by no
geometry receive `fill`. -/
def features_rasterize (shapes : List (Geometry × ℚ)) (fill : ℚ) (t : Affine)
    (out_shape : ℕ × ℕ) : List (List ℚ) :=
  (List.range out_shape.1).map (fun row =>
    (List.range out_shape.2).map (fun col =>
      burnCell shapes fill (cellCenter t row col)))

/-- A value stored in a returned metadata dictionary. -/
inductive MetaValue where
  | num (q : ℚ)
  | affine (t : Affine)
  | crsValue (c : Option String)
  deriving DecidableEq, Repr

/-- A metadata dictionary: ordered key–value pairs. -/
abbrev Metadata := List (String × MetaValue)

/-- Look a key up in a metadata dictionary. -/
def metaLookup (m : Metadata) (k : String) : Option MetaValue :=
  (m.find? (fun kv => kv.1 == k)).map Prod.snd

/-- The keys of a metadata dictionary. -/
def metaKeys (m : Metadata) : List String := m.map Prod.fst

/-- A `rasterio` profile, as read by `_rasterize_vector`: `width`, `height`
and `transform` of an existing raster. -/
structure Profile where
  width : ℚ
  height : ℚ
  transform : Affine
  deriving DecidableEq, Repr

/-- `_transform_from_geometries` from `rasterize.py`: bounding extent of the
geometries, `width = (max_x - min_x) / resolution`,
`height = (max_y - min_y) / resolution`, transform from the bounds. -/
def _transform_from_geometries (geodataframe : GeoDataFrame) (resolution : ℚ) :
    ℚ × ℚ × Affine :=
  let b := geodataframe.totalBounds
  let width := (b.2.2.1 - b.1) / resolution
  let height := (b.2.2.2 - b.2.1) / resolution
  (width, height, from_bounds b.1 b.2.1 b.2.2.1 b.2.2.2 width height)

/-- The geometry–value pairs handed to `features.rasterize`: values from
`value_column` when given, else `default_value` for every geometry. -/
def geometryValuePairs (gdf : GeoDataFrame) (value_column : Option String)
    (default_value : ℚ) : List (Geometry × ℚ) :=
  match value_column with
  | none => gdf.geometries.map (fun g => (g, default_value))
  | some c => gdf.geometries.zip (gdf.getColumn c)

/-- The grid frame used by `_rasterize_vector`: derived from the geometries
when no base profile is given, else taken unchanged from the profile. -/
def resolvedFrame (gdf : GeoDataFrame) (base_raster_profile : Option Profile)
    (resolution : ℚ) : ℚ × ℚ × Affine :=
  match base_raster_profile with
  | none => _transform_from_geometries gdf resolution
  | some p => (p.width, p.height, p.transform)

/-- `_rasterize_vector` from `rasterize.py`: resolve the frame, burn the
geometry–value pairs into an array of shape `(round height, round width)`,
and return it with metadata `transform`, `height`, `width` (the latter two
unrounded). -/
def _rasterize_vector (geodataframe : GeoDataFrame) (value_column : Option String)
    (default_value fill_value : ℚ) (base_raster_profile : Option Profile)
    (resolution : ℚ) : List (List ℚ) × Metadata :=
  let pairs := geometryValuePairs geodataframe value_column default_value
  let frame := resolvedFrame geodataframe base_raster_profile resolution
  let out_raster_array := features_rasterize pairs fill_value frame.2.2
    ((pythonRound frame.2.1).toNat, (pythonRound frame.1).toNat)
  (out_raster_array,
   [("transform", .affine frame.2.2), ("height", .num frame.2.1),
    ("width", .num frame.1)])

/-- `true` when `value_column` is given but absent from the dataframe. -/
def badValueColumn (gdf : GeoDataFrame) (value_column : Option String) : Bool :=
  match value_column with
  | none => false
  | some c => ! gdf.hasColumn c

/-- `true` when `buffer_value` is given and negative. -/
def badBufferValue (buffer_value : Option ℚ) : Bool :=
  match buffer_value with
  | none => false
  | some b => decide (b < 0)

/-- The state of the input geodataframe after the buffering step:
`geodataframe["geometry"] = geodataframe["geometry"].apply(lambda geom:
geom.buffer(buffer_value))` replaces every geometry in place. -/
def applyBuffer (gdf : GeoDataFrame) (buffer_value : Option ℚ) : GeoDataFrame :=
  match buffer_value with
  | none => gdf
  | some b => ⟨gdf.geometries.map (fun g => g.buffer b), gdf.columns, gdf.crs⟩

/-- `rasterize_vector` from `rasterize.py`.  Validates (empty input, positive
resolution, known value column, non-negative buffer), then buffers the
geometries in place when `buffer_value` is given, then delegates to
`_rasterize_vector`.  The second component of the result is the state of the
caller's geodataframe after the call. -/
def rasterize_vector (geodataframe : GeoDataFrame) (resolution : ℚ)
    (value_column : Option String) (default_value fill_value : ℚ)
    (base_raster_profile : Option Profile) (buffer_value : Option ℚ) :
    Except PyError (List (List ℚ) × Metadata) × GeoDataFrame :=
  if geodataframe.numRows = 0 then
    (.error (.emptyDataFrameException "Expected geodataframe to contain geometries."),
     geodataframe)
  else if ¬ 0 < resolution then
    (.error (.valueError "Expected a positive value resolution"), geodataframe)
  else if badValueColumn geodataframe value_column then
    (.error (.valueError "Expected value_column to be contained in geodataframe columns."),
     geodataframe)
  else if badBufferValue buffer_value then
    (.error (.valueError "Expected a positive buffer_value"), geodataframe)
  else
    let buffered := applyBuffer geodataframe buffer_value
    (.ok (_rasterize_vector buffered value_column default_value fill_value
      base_raster_profile resolution), buffered)

/-- The six variogram model families accepted by `kriging`. -/
inductive VariogramModel where
  | linear | power | gaussian | spherical | exponential | holeEffect
  deriving DecidableEq, Repr

/-- The two kriging methods accepted by `kriging`. -/
inductive KrigingMethod where
  | ordinary | universal
  deriving DecidableEq, Repr

/-- Modelled from the spec: the `pykrige` solvers `OrdinaryKriging` and
`UniversalKriging` fit a variogram model to the sample coordinates and
values by external floating-point numerics.  The embedding abstracts the
fitted interpolants as functions of the constructor arguments; every theorem
below holds for an arbitrary solver. -/
structure KrigingSolver where
  ordinaryAt : List ℚ → List ℚ → List ℚ → VariogramModel → ℚ → ℚ → ℚ
  universalAt : List ℚ → List ℚ → List ℚ → VariogramModel → List String → ℚ → ℚ → ℚ

/-- Modelled from the spec: `execute("grid", grid_x, grid_y)` evaluates the
fitted interpolant at every node of the rectangular grid, producing an array
of shape `(len grid_y, len grid_x)`. -/
def krigeExecuteGrid (interp : ℚ → ℚ → ℚ) (grid_x grid_y : List ℚ) :
    List (List ℚ) :=
  grid_y.map (fun gy => grid_x.map (fun gx => interp gx gy))

/-- `numpy.ma.getdata`: drop the mask, keep the raw values. -/
def maGetdata (a : List (List ℚ)) : List (List ℚ) := a

/-- `grid_x` of `_kriging`: `np.linspace(extent[0], extent[1],
resolution[0])`. -/
def krigingGridX (extent : ℚ × ℚ × ℚ × ℚ) (resolution : ℤ × ℤ) : List ℚ :=
  np_linspace extent.1 extent.2.1 resolution.1.toNat

/-- `grid_y` of `_kriging`: `np.linspace(extent[2], extent[3],
resolution[1])`. -/
def krigingGridY (extent : ℚ × ℚ × ℚ × ℚ) (resolution : ℤ × ℤ) : List ℚ :=
  np_linspace extent.2.2.1 extent.2.2.2 resolution.2.toNat

/-- `_kriging` from `kriging_interpolation.py`: sample coordinates and
values, the grids spanning the extent, the solver run for the requested
method, the mask dropped, and metadata `crs`, `width`, `height`. -/
def _kriging (solver : KrigingSolver) (data : GeoDataFrame) (target_column : String)
    (resolution : ℤ × ℤ) (extent : ℚ × ℚ × ℚ × ℚ)
    (variogram_model : VariogramModel) (method : KrigingMethod)
    (drift_terms : List String) : List (List ℚ) × Metadata :=
  let x := data.geometries.map Geometry.x
  let y := data.geometries.map Geometry.y
  let z := data.getColumn target_column
  let grid_x := krigingGridX extent resolution
  let grid_y := krigingGridY extent resolution
  let z_interpolated :=
    match method with
    | .universal =>
        maGetdata (krigeExecuteGrid
          (solver.universalAt x y z variogram_model drift_terms) grid_x grid_y)
    | .ordinary =>
        maGetdata (krigeExecuteGrid
          (solver.ordinaryAt x y z variogram_model) grid_x grid_y)
  (z_interpolated,
   [("crs", .crsValue data.crs), ("width", .num (grid_x.length : ℚ)),
    ("height", .num (grid_y.length : ℚ))])

/-- The five drift terms accepted by `kriging`. -/
def acceptedDriftTerms : List String :=
  ["regional_linear", "point_log", "external_Z", "specified", "functional"]

/-- `kriging` from `kriging_interpolation.py`: validates (non-empty data,
known target column, positive resolution components, recognized drift
terms), then delegates to `_kriging`. -/
def kriging (solver : KrigingSolver) (data : GeoDataFrame) (target_column : String)
    (resolution : ℤ × ℤ) (extent : ℚ × ℚ × ℚ × ℚ)
    (variogram_model : VariogramModel) (method : KrigingMethod)
    (drift_terms : List String) : Except PyError (List (List ℚ) × Metadata) :=
  if data.empty then
    .error (.emptyDataFrameException "The input GeoDataFrame is empty.")
  else if ! data.hasColumn target_column then
    .error (.invalidParameterValueException
      "Expected target_column to be contained in geodataframe columns.")
  else if resolution.1 ≤ 0 ∨ resolution.2 ≤ 0 then
    .error (.invalidParameterValueException "The resolution must be greater than zero.")
  else if drift_terms.any (fun term => ! acceptedDriftTerms.contains term) then
    .error (.invalidParameterValueException
      "Accepted drift terms are regional_linear, point_log, external_Z, specified and functional.")
  else
    .ok (_kriging solver data target_column resolution extent variogram_model
      method drift_terms)

/-- A cell of a row-major grid, when in range. -/
def gridCell (arr : List (List ℚ)) (row col : ℕ) : Option ℚ :=
  (arr[row]?).bind (fun r => r[col]?)

/-! Concrete data used to exercise the operations. -/

/-- A solver whose interpolants are identically zero, used to instantiate
solver-generic theorems. -/
def solver0 : KrigingSolver := ⟨fun _ _ _ _ _ _ => 0, fun _ _ _ _ _ _ _ => 0⟩

/-- A geodataframe with one 2×2 square and one attribute column. -/
def rectGdf : GeoDataFrame := ⟨[⟨.rect 0 0 2 2, 0⟩], [("v", [7])], none⟩

/-- A geodataframe with no rows. -/
def emptyGdf : GeoDataFrame := ⟨[], [("v", [])], none⟩

/-- Three sample points with values 1, 2, 3 in column `t`. -/
def sampleData : GeoDataFrame :=
  ⟨[⟨.point 0 0, 0⟩, ⟨.point 1 0, 0⟩, ⟨.point 0 1, 0⟩],
   [("t", [1, 2, 3])], some "EPSG:4326"⟩

/-- Two overlapping squares with values 1 and 2 in column `v`. -/
def overlapGdf : GeoDataFrame :=
  ⟨[⟨.rect 0 0 2 2, 0⟩, ⟨.rect 1 1 3 3, 0⟩], [("v", [1, 2])], none⟩

/-- One square polygon covering (0,0)–(10,10). -/
def squareGdf : GeoDataFrame := ⟨[⟨.rect 0 0 10 10, 0⟩], [], none⟩

/-- One rectangle covering (0,0)–(5,3), whose extent is not a multiple of
resolution 2. -/
def slabGdf : GeoDataFrame := ⟨[⟨.rect 0 0 5 3, 0⟩], [], none⟩

/-! Helper lemmas about the embedded operations. -/

/-- A successful `rasterize_vector` call passed every validation, left the
geodataframe in the (possibly buffered) state, and returned the
`_rasterize_vector` result on that state. -/
theorem rasterize_vector_ok (geodataframe : GeoDataFrame) (resolution : ℚ)
    (value_column : Option String) (default_value fill_value : ℚ)
    (base_raster_profile : Option Profile) (buffer_value : Option ℚ)
    (r : List (List ℚ) × Metadata) (s : GeoDataFrame)
    (h : rasterize_vector geodataframe resolution value_column default_value fill_value
      base_raster_profile buffer_value = (.ok r, s)) :
    geodataframe.numRows ≠ 0 ∧ 0 < resolution
    ∧ badValueColumn geodataframe value_column = false
    ∧ badBufferValue buffer_value = false
    ∧ s = applyBuffer geodataframe buffer_value
    ∧ r = _rasterize_vector (applyBuffer geodataframe buffer_value) value_column
        default_value fill_value base_raster_profile resolution := by
  unfold rasterize_vector at h
  split_ifs at h with h1 h2 h3 h4 <;>
    simp only [Prod.mk.injEq] at h <;>
    obtain ⟨hA, hB⟩ := h <;>
    try exact Except.noConfusion hA
  injection hA with hA
  exact ⟨h1, h2, by simpa using h3, by simpa using h4, hB.symm, hA.symm⟩

/-- A successful `kriging` call passed every validation and returned the
`_kriging` result. -/
theorem kriging_ok (solver : KrigingSolver) (data : GeoDataFrame)
    (target_column : String) (resolution : ℤ × ℤ) (extent : ℚ × ℚ × ℚ × ℚ)
    (variogram_model : VariogramModel) (method : KrigingMethod)
    (drift_terms : List String) (r : List (List ℚ) × Metadata)
    (h : kriging solver data target_column resolution extent variogram_model
      method drift_terms = .ok r) :
    data.empty = false ∧ data.hasColumn target_column = true
    ∧ 0 < resolution.1 ∧ 0 < resolution.2
    ∧ drift_terms.any (fun term => ! acceptedDriftTerms.contains term) = false
    ∧ r = _kriging solver data target_column resolution extent variogram_model
        method drift_terms := by
  unfold kriging at h
  split_ifs at h with h1 h2 h3 h4
  injection h with hA
  have h3' := not_or.mp h3
  exact ⟨by simpa using h1, by simpa using h2, lt_of_not_le h3'.1,
    lt_of_not_le h3'.2, by simpa using h4, hA.symm⟩

/-- Burning in order is choosing the value of the last shape covering the
point (or `fill` when no shape covers it). -/
theorem burnCell_eq_getLast (p : ℚ × ℚ) (shapes : List (Geometry × ℚ)) :
    ∀ fill, burnCell shapes fill p
      = (((shapes.filter (fun gv => gv.1.containsPoint p.1 p.2)).getLast?).map
          Prod.snd).getD fill := by
  induction shapes with
  | nil => intro fill; rfl
  | cons a l ih =>
    intro fill
    have hstep : burnCell (a :: l) fill p
        = burnCell l (if a.1.containsPoint p.1 p.2 then a.2 else fill) p := rfl
    rw [hstep, ih, List.filter_cons]
    by_cases hc : a.1.containsPoint p.1 p.2
    · rw [if_pos hc, if_pos hc]
      cases hl : l.filter (fun gv => gv.1.containsPoint p.1 p.2) with
      | nil => simp
      | cons b bs =>
        rw [List.getLast?_cons_cons]
        cases hx : (b :: bs).getLast? with
        | none => simp at hx
        | some x => simp
    · rw [if_neg hc, if_neg hc]

/-- Burning a uniform value paints covered cells with that value and leaves
`fill` elsewhere. -/
theorem burnCell_map_const (gs : List Geometry) (dv : ℚ) (p : ℚ × ℚ) :
    ∀ fill, burnCell (gs.map (fun g => (g, dv))) fill p
      = if gs.any (fun g => g.containsPoint p.1 p.2) then dv else fill := by
  induction gs with
  | nil => intro fill; rfl
  | cons a l ih =>
    intro fill
    have hstep : burnCell ((a :: l).map (fun g => (g, dv))) fill p
        = burnCell (l.map (fun g => (g, dv)))
            (if a.containsPoint p.1 p.2 then dv else fill) p := rfl
    rw [hstep, ih, List.any_cons]
    by_cases hc : a.containsPoint p.1 p.2
    · simp [hc]
    · simp [hc]

/-- The in-range cells of `features_rasterize` are burned cells at the cell
center. -/
theorem features_rasterize_cell (shapes : List (Geometry × ℚ)) (fill : ℚ)
    (t : Affine) (rows cols row col : ℕ) (hr : row < rows) (hc : col < cols) :
    gridCell (features_rasterize shapes fill t (rows, cols)) row col
      = some (burnCell shapes fill (cellCenter t row col)) := by
  simp [gridCell, features_rasterize, List.getElem?_map, List.getElem?_range hr,
    List.getElem?_range hc]

/-- `np.linspace` returns exactly `num` points. -/
theorem np_linspace_length (start stop : ℚ) (num : ℕ) :
    (np_linspace start stop num).length = num := by
  unfold np_linspace
  split_ifs with h1 h2
  · simp [h1]
  · simp [h2]
  · simp

/-- The first point of `np.linspace` is `start` (when there are at least two
points). -/
theorem np_linspace_head (start stop : ℚ) (num : ℕ) (h : 2 ≤ num) :
    (np_linspace start stop num).head? = some start := by
  unfold np_linspace
  rw [if_neg (by omega), if_neg (by omega)]
  obtain ⟨k, rfl⟩ : ∃ k, num = k + 2 := ⟨num - 2, by omega⟩
  rw [List.range_succ_eq_map]
  simp

/-- The last point of `np.linspace` is `stop` (when there are at least two
points). -/
theorem np_linspace_getLast (start stop : ℚ) (num : ℕ) (h : 2 ≤ num) :
    (np_linspace start stop num).getLast? = some stop := by
  unfold np_linspace
  rw [if_neg (by omega), if_neg (by omega)]
  rw [List.getLast?_eq_getElem?]
  rw [List.length_map, List.length_range]
  rw [List.getElem?_map, List.getElem?_range (by omega)]
  have hne : ((num - 1 : ℕ) : ℚ) ≠ 0 := by
    have h1 : num - 1 ≠ 0 := by omega
    exact_mod_cast h1
  simp only [Option.map_some']
  congr 1
  rw [mul_div_assoc, div_self hne, mul_one]
  ring

/-- The interpolated grid of `_kriging` has one row per `grid_y` node and one
column per `grid_x` node, for either method. -/
theorem _kriging_shape (solver : KrigingSolver) (data : GeoDataFrame)
    (target_column : String) (resolution : ℤ × ℤ) (extent : ℚ × ℚ × ℚ × ℚ)
    (variogram_model : VariogramModel) (method : KrigingMethod)
    (drift_terms : List String) :
    ((_kriging solver data target_column resolution extent variogram_model
        method drift_terms).1).length = (krigingGridY extent resolution).length
    ∧ (∀ row ∈ (_kriging solver data target_column resolution extent
        variogram_model method drift_terms).1,
        row.length = (krigingGridX extent resolution).length) := by
  unfold _kriging krigeExecuteGrid maGetdata
  cases method
  · refine ⟨by simp, ?_⟩
    intro row hrow
    simp only at hrow
    obtain ⟨gy, _, rfl⟩ := List.mem_map.mp hrow
    simp
  · refine ⟨by simp, ?_⟩
    intro row hrow
    simp only at hrow
    obtain ⟨gy, _, rfl⟩ := List.mem_map.mp hrow
    simp

/-! Claim theorems. -/

/-- C1 (counterexample): rasterizing `rectGdf` with `buffer_value = 1 ≥ 0`
succeeds, yet the geometries of the caller's geodataframe after the call
differ from those before it — the buffering step mutates the input. -/
theorem C1_counterexample :
    ((rasterize_vector rectGdf 1 none 1 0 none (some 1)).1).isOk = true
    ∧ (rasterize_vector rectGdf 1 none 1 0 none (some 1)).2.geometries
        ≠ rectGdf.geometries := by
  constructor
  · decide
  · decide

/-- C1 (amended): without buffering, `rasterize_vector` leaves the caller's
geodataframe unchanged; on any validation error it is also unchanged; but
when buffering is requested and validation passes, the call replaces the
input's geometries in place with their buffered versions (the input is
mutated, not copied). -/
theorem C1_buffer_mutation (gdf : GeoDataFrame) (res : ℚ) (vc : Option String)
    (dv fv : ℚ) (base : Option Profile) (b : ℚ) :
    ((rasterize_vector gdf res vc dv fv base none).2 = gdf)
    ∧ (∀ e, (rasterize_vector gdf res vc dv fv base (some b)).1 = .error e →
        (rasterize_vector gdf res vc dv fv base (some b)).2 = gdf)
    ∧ (gdf.numRows ≠ 0 → 0 < res → badValueColumn gdf vc = false → 0 ≤ b →
        (rasterize_vector gdf res vc dv fv base (some b)).2.geometries
          = gdf.geometries.map (fun g => g.buffer b)) := by
  refine ⟨?_, ?_, ?_⟩
  · unfold rasterize_vector
    split_ifs <;> rfl
  · intro e he
    unfold rasterize_vector at he ⊢
    split_ifs at he ⊢ <;> rfl
  · intro h1 h2 h3 h4
    unfold rasterize_vector
    rw [if_neg h1, if_neg (not_not.mpr h2), if_neg (by simp [h3]),
      if_neg (by simp [badBufferValue, not_lt, h4])]
    rfl

/-- C1 witness: concrete instances of the three conjuncts of
`C1_buffer_mutation`. -/
theorem C1_buffer_mutation_witness :
    ((rasterize_vector rectGdf 1 none 1 0 none none).2 = rectGdf)
    ∧ ((rasterize_vector rectGdf 0 none 1 0 none (some 1)).2 = rectGdf)
    ∧ ((rasterize_vector rectGdf 1 none 1 0 none (some 1)).2.geometries
        = rectGdf.geometries.map (fun g => g.buffer 1)) :=
  ⟨(C1_buffer_mutation rectGdf 1 none 1 0 none 1).1,
   (C1_buffer_mutation rectGdf 0 none 1 0 none 1).2.1
     (.valueError "Expected a positive value resolution") (by decide),
   (C1_buffer_mutation rectGdf 1 none 1 0 none 1).2.2
     (by decide) (by decide) (by decide) (by decide)⟩

/-- C2 (counterexample): a successful kriging call whose returned metadata
keys are exactly `crs`, `width`, `height` — the `transform` key required by
the claim is absent. -/
theorem C2_counterexample :
    ((kriging solver0 sampleData "t" (2, 2) (0, 1, 0, 1) .linear .ordinary
        ["regional_linear"]).toOption.map (fun r => metaKeys r.2))
      = some ["crs", "width", "height"]
    ∧ "transform" ∉ (["crs", "width", "height"] : List String) := by
  constructor
  · decide
  · decide

/-- C2 (amended): every successful rasterize call returns metadata with
exactly the keys `transform`, `height`, `width`; every successful kriging
call returns metadata with exactly the keys `crs`, `width`, `height` (the
interpolator's metadata carries no transform). -/
theorem C2_metadata_keys (gdf : GeoDataFrame) (res : ℚ) (vc : Option String)
    (dv fv : ℚ) (base : Option Profile) (bv : Option ℚ)
    (r : List (List ℚ) × Metadata) (s : GeoDataFrame)
    (solver : KrigingSolver) (data : GeoDataFrame) (target : String)
    (res2 : ℤ × ℤ) (extent : ℚ × ℚ × ℚ × ℚ) (vm : VariogramModel)
    (method : KrigingMethod) (drift : List String)
    (r2 : List (List ℚ) × Metadata) :
    (rasterize_vector gdf res vc dv fv base bv = (.ok r, s) →
      metaKeys r.2 = ["transform", "height", "width"])
    ∧ (kriging solver data target res2 extent vm method drift = .ok r2 →
      metaKeys r2.2 = ["crs", "width", "height"])
    ∧ (kriging solver data target res2 extent vm method drift = .ok r2 →
      metaLookup r2.2 "crs" = some (.crsValue data.crs)) := by
  refine ⟨?_, ?_, ?_⟩
  · intro h
    obtain ⟨-, -, -, -, -, hr⟩ :=
      rasterize_vector_ok gdf res vc dv fv base bv r s h
    subst hr
    rfl
  · intro h
    obtain ⟨-, -, -, -, -, hr⟩ :=
      kriging_ok solver data target res2 extent vm method drift r2 h
    subst hr
    rfl
  · intro h
    obtain ⟨-, -, -, -, -, hr⟩ :=
      kriging_ok solver data target res2 extent vm method drift r2 h
    subst hr
    rfl

/-- C2 witness: the key lists of a concrete successful rasterize call and a
concrete successful kriging call. -/
theorem C2_metadata_keys_witness :
    metaKeys [("transform", MetaValue.affine ⟨1, 0, 0, 0, -1, 10⟩),
        ("height", MetaValue.num 10), ("width", MetaValue.num 10)]
      = ["transform", "height", "width"]
    ∧ metaKeys [("crs", MetaValue.crsValue (some "EPSG:4326")),
        ("width", MetaValue.num 2), ("height", MetaValue.num 2)]
      = ["crs", "width", "height"]
    ∧ metaLookup [("crs", MetaValue.crsValue (some "EPSG:4326")),
        ("width", MetaValue.num 2), ("height", MetaValue.num 2)] "crs"
      = some (.crsValue sampleData.crs) :=
  ⟨(C2_metadata_keys squareGdf 1 none 5 0 none none
      (List.replicate 10 (List.replicate 10 (5 : ℚ)),
       [("transform", MetaValue.affine ⟨1, 0, 0, 0, -1, 10⟩),
        ("height", MetaValue.num 10), ("width", MetaValue.num 10)])
      squareGdf solver0 sampleData "t" (2, 2) (0, 1, 0, 1) .linear .ordinary
      ["regional_linear"]
      ([[0, 0], [0, 0]],
       [("crs", MetaValue.crsValue (some "EPSG:4326")),
        ("width", MetaValue.num 2), ("height", MetaValue.num 2)])).1 (by decide),
   (C2_metadata_keys squareGdf 1 none 5 0 none none
      (List.replicate 10 (List.replicate 10 (5 : ℚ)),
       [("transform", MetaValue.affine ⟨1, 0, 0, 0, -1, 10⟩),
        ("height", MetaValue.num 10), ("width", MetaValue.num 10)])
      squareGdf solver0 sampleData "t" (2, 2) (0, 1, 0, 1) .linear .ordinary
      ["regional_linear"]
      ([[0, 0], [0, 0]],
       [("crs", MetaValue.crsValue (some "EPSG:4326")),
        ("width", MetaValue.num 2), ("height", MetaValue.num 2)])).2.1 (by decide),
   (C2_metadata_keys squareGdf 1 none 5 0 none none
      (List.replicate 10 (List.replicate 10 (5 : ℚ)),
       [("transform", MetaValue.affine ⟨1, 0, 0, 0, -1, 10⟩),
        ("height", MetaValue.num 10), ("width", MetaValue.num 10)])
      squareGdf solver0 sampleData "t" (2, 2) (0, 1, 0, 1) .linear .ordinary
      ["regional_linear"]
      ([[0, 0], [0, 0]],
       [("crs", MetaValue.crsValue (some "EPSG:4326")),
        ("width", MetaValue.num 2), ("height", MetaValue.num 2)])).2.2 (by decide)⟩

/-- C3 (counterexample): `rasterize_vector` with `resolution = 0` fails with
a plain `ValueError`, not with the `InvalidParameterValueException` kind the
claim requires for parameter violations. -/
theorem C3_counterexample :
    (rasterize_vector rectGdf 0 none 1 0 none none).1
      = .error (.valueError "Expected a positive value resolution")
    ∧ isInvalidParameterError (rasterize_vector rectGdf 0 none 1 0 none none).1
        = false := by
  constructor
  · decide
  · decide

/-- C3 (amended): every precondition violation fails eagerly — before any
buffering (the geodataframe is returned unchanged) and independently of the
kriging solver — an empty input with the EmptyDataFrame kind in both
operations, and the parameter violations with `InvalidParameterValueException`
in `kriging` but with a plain `ValueError` in `rasterize_vector`, each error
message naming the offending parameter. -/
theorem C3_eager_validation (gdf : GeoDataFrame) (res : ℚ) (vc : Option String)
    (dv fv : ℚ) (base : Option Profile) (bv : Option ℚ)
    (solver : KrigingSolver) (data : GeoDataFrame) (target : String)
    (res2 : ℤ × ℤ) (extent : ℚ × ℚ × ℚ × ℚ) (vm : VariogramModel)
    (method : KrigingMethod) (drift : List String) :
    (gdf.numRows = 0 → rasterize_vector gdf res vc dv fv base bv
      = (.error (.emptyDataFrameException "Expected geodataframe to contain geometries."), gdf))
    ∧ (gdf.numRows ≠ 0 → ¬ 0 < res → rasterize_vector gdf res vc dv fv base bv
      = (.error (.valueError "Expected a positive value resolution"), gdf))
    ∧ (gdf.numRows ≠ 0 → 0 < res → badValueColumn gdf vc = true →
      rasterize_vector gdf res vc dv fv base bv
      = (.error (.valueError "Expected value_column to be contained in geodataframe columns."), gdf))
    ∧ (gdf.numRows ≠ 0 → 0 < res → badValueColumn gdf vc = false →
      badBufferValue bv = true → rasterize_vector gdf res vc dv fv base bv
      = (.error (.valueError "Expected a positive buffer_value"), gdf))
    ∧ (data.empty = true → kriging solver data target res2 extent vm method drift
      = .error (.emptyDataFrameException "The input GeoDataFrame is empty."))
    ∧ (data.empty = false → data.hasColumn target = false →
      kriging solver data target res2 extent vm method drift
      = .error (.invalidParameterValueException
          "Expected target_column to be contained in geodataframe columns."))
    ∧ (data.empty = false → data.hasColumn target = true →
      (res2.1 ≤ 0 ∨ res2.2 ≤ 0) →
      kriging solver data target res2 extent vm method drift
      = .error (.invalidParameterValueException "The resolution must be greater than zero.")) := by
  refine ⟨?_, ?_, ?_, ?_, ?_, ?_, ?_⟩
  · intro h1
    unfold rasterize_vector
    rw [if_pos h1]
  · intro h1 h2
    unfold rasterize_vector
    rw [if_neg h1, if_pos h2]
  · intro h1 h2 h3
    unfold rasterize_vector
    rw [if_neg h1, if_neg (not_not.mpr h2), if_pos h3]
  · intro h1 h2 h3 h4
    unfold rasterize_vector
    rw [if_neg h1, if_neg (not_not.mpr h2), if_neg (by simp [h3]), if_pos h4]
  · intro h1
    unfold kriging
    rw [if_pos h1]
  · intro h1 h2
    unfold kriging
    rw [if_neg (by simp [h1]), if_pos (by simp [h2])]
  · intro h1 h2 h3
    unfold kriging
    rw [if_neg (by simp [h1]), if_neg (by simp [h2]), if_pos h3]

/-- C3 witness: concrete instances of all seven conjuncts of
`C3_eager_validation`. -/
theorem C3_eager_validation_witness :
    (rasterize_vector emptyGdf 1 none 1 0 none none
      = (.error (.emptyDataFrameException "Expected geodataframe to contain geometries."), emptyGdf))
    ∧ (rasterize_vector rectGdf 0 none 1 0 none none
      = (.error (.valueError "Expected a positive value resolution"), rectGdf))
    ∧ (rasterize_vector rectGdf 1 (some "missing") 1 0 none none
      = (.error (.valueError "Expected value_column to be contained in geodataframe columns."), rectGdf))
    ∧ (rasterize_vector rectGdf 1 none 1 0 none (some (-1))
      = (.error (.valueError "Expected a positive buffer_value"), rectGdf))
    ∧ (kriging solver0 emptyGdf "t" (2, 2) (0, 1, 0, 1) .linear .ordinary ["regional_linear"]
      = .error (.emptyDataFrameException "The input GeoDataFrame is empty."))
    ∧ (kriging solver0 sampleData "missing" (2, 2) (0, 1, 0, 1) .linear .ordinary ["regional_linear"]
      = .error (.invalidParameterValueException
          "Expected target_column to be contained in geodataframe columns."))
    ∧ (kriging solver0 sampleData "t" (0, 2) (0, 1, 0, 1) .linear .ordinary ["regional_linear"]
      = .error (.invalidParameterValueException "The resolution must be greater than zero.")) :=
  ⟨(C3_eager_validation emptyGdf 1 none 1 0 none none solver0 emptyGdf "t"
      (2, 2) (0, 1, 0, 1) .linear .ordinary ["regional_linear"]).1 (by decide),
   (C3_eager_validation rectGdf 0 none 1 0 none none solver0 emptyGdf "t"
      (2, 2) (0, 1, 0, 1) .linear .ordinary ["regional_linear"]).2.1 (by decide) (by decide),
   (C3_eager_validation rectGdf 1 (some "missing") 1 0 none none solver0 emptyGdf "t"
      (2, 2) (0, 1, 0, 1) .linear .ordinary ["regional_linear"]).2.2.1
      (by decide) (by decide) (by decide),
   (C3_eager_validation rectGdf 1 none 1 0 none (some (-1)) solver0 emptyGdf "t"
      (2, 2) (0, 1, 0, 1) .linear .ordinary ["regional_linear"]).2.2.2.1
      (by decide) (by decide) (by decide) (by decide),
   (C3_eager_validation rectGdf 1 none 1 0 none none solver0 emptyGdf "t"
      (2, 2) (0, 1, 0, 1) .linear .ordinary ["regional_linear"]).2.2.2.2.1 (by decide),
   (C3_eager_validation rectGdf 1 none 1 0 none none solver0 sampleData "missing"
      (2, 2) (0, 1, 0, 1) .linear .ordinary ["regional_linear"]).2.2.2.2.2.1
      (by decide) (by decide),
   (C3_eager_validation rectGdf 1 none 1 0 none none solver0 sampleData "t"
      (0, 2) (0, 1, 0, 1) .linear .ordinary ["regional_linear"]).2.2.2.2.2.2
      (by decide) (by decide) (Or.inl (by decide))⟩

/-- C4: in universal mode, an otherwise valid call whose drift-term list
contains an unrecognized term fails with `InvalidParameterValueException`
naming the accepted drift terms, before the solver is ever consulted (the
result is the same for every solver). -/
theorem C4_invalid_drift (solver : KrigingSolver) (data : GeoDataFrame)
    (target : String) (res : ℤ × ℤ) (extent : ℚ × ℚ × ℚ × ℚ)
    (vm : VariogramModel) (drift : List String)
    (h1 : data.empty = false) (h2 : data.hasColumn target = true)
    (h3 : 0 < res.1) (h4 : 0 < res.2)
    (h5 : drift.any (fun term => ! acceptedDriftTerms.contains term) = true) :
    kriging solver data target res extent vm .universal drift
      = .error (.invalidParameterValueException
        "Accepted drift terms are regional_linear, point_log, external_Z, specified and functional.") := by
  unfold kriging
  rw [if_neg (by simp [h1]), if_neg (by simp [h2]),
    if_neg (by simp [not_or, not_le, h3, h4]), if_pos h5]

/-- C4 witness: the drift term `bogus` is rejected on concrete valid data. -/
theorem C4_invalid_drift_witness :
    kriging solver0 sampleData "t" (5, 5) (0, 1, 0, 1) .linear .universal ["bogus"]
      = .error (.invalidParameterValueException
        "Accepted drift terms are regional_linear, point_log, external_Z, specified and functional.") :=
  C4_invalid_drift solver0 sampleData "t" (5, 5) (0, 1, 0, 1) .linear ["bogus"]
    (by decide) (by decide) (by decide) (by decide) (by decide)

/-- C5: a successful kriging call returns a grid with `resolution.2` rows of
`resolution.1` cells each — `resolution.1 × resolution.2` cells in total —
and metadata whose `width` and `height` equal `resolution.1` and
`resolution.2`, for any method and drift-term combination. -/
theorem C5_grid_size (solver : KrigingSolver) (data : GeoDataFrame)
    (target : String) (res : ℤ × ℤ) (extent : ℚ × ℚ × ℚ × ℚ)
    (vm : VariogramModel) (method : KrigingMethod) (drift : List String)
    (arr : List (List ℚ)) (meta : Metadata)
    (hok : kriging solver data target res extent vm method drift = .ok (arr, meta)) :
    arr.length = res.2.toNat
    ∧ (∀ row ∈ arr, row.length = res.1.toNat)
    ∧ (arr.map List.length).sum = res.1.toNat * res.2.toNat
    ∧ metaLookup meta "width" = some (.num (res.1 : ℚ))
    ∧ metaLookup meta "height" = some (.num (res.2 : ℚ)) := by
  obtain ⟨-, -, h3, h4, -, hr⟩ :=
    kriging_ok solver data target res extent vm method drift (arr, meta) hok
  have harr : arr = (_kriging solver data target res extent vm method drift).1 :=
    congrArg Prod.fst hr
  have hmeta : meta = (_kriging solver data target res extent vm method drift).2 :=
    congrArg Prod.snd hr
  have hx : (krigingGridX extent res).length = res.1.toNat := np_linspace_length _ _ _
  have hy : (krigingGridY extent res).length = res.2.toNat := np_linspace_length _ _ _
  obtain ⟨hlen, hrows⟩ := _kriging_shape solver data target res extent vm method drift
  have hcastx : ((res.1.toNat : ℕ) : ℚ) = ((res.1 : ℤ) : ℚ) := by
    exact_mod_cast congrArg (fun z : ℤ => (z : ℚ)) (Int.toNat_of_nonneg h3.le)
  have hcasty : ((res.2.toNat : ℕ) : ℚ) = ((res.2 : ℤ) : ℚ) := by
    exact_mod_cast congrArg (fun z : ℤ => (z : ℚ)) (Int.toNat_of_nonneg h4.le)
  refine ⟨?_, ?_, ?_, ?_, ?_⟩
  · rw [harr, hlen, hy]
  · intro row hm
    rw [harr] at hm
    rw [hrows row hm, hx]
  · have hrep : arr.map List.length = List.replicate res.2.toNat res.1.toNat := by
      rw [List.eq_replicate_iff]
      refine ⟨by rw [List.length_map, harr, hlen, hy], ?_⟩
      intro b hb
      obtain ⟨row, hm, rfl⟩ := List.mem_map.mp hb
      rw [harr] at hm
      rw [hrows row hm, hx]
    rw [hrep, List.sum_const_nat, Nat.mul_comm]
  · have hw : metaLookup (_kriging solver data target res extent vm method drift).2 "width"
        = some (.num ((krigingGridX extent res).length : ℚ)) := rfl
    rw [hmeta, hw, hx, hcastx]
  · have hh : metaLookup (_kriging solver data target res extent vm method drift).2 "height"
        = some (.num ((krigingGridY extent res).length : ℚ)) := rfl
    rw [hmeta, hh, hy, hcasty]

/-- C5 witness: a concrete ordinary-kriging call with resolution (2, 3). -/
theorem C5_grid_size_witness :
    [[(0 : ℚ), 0], [0, 0], [0, 0]].length = (3 : ℤ).toNat
    ∧ (∀ row ∈ [[(0 : ℚ), 0], [0, 0], [0, 0]], row.length = (2 : ℤ).toNat)
    ∧ ([[(0 : ℚ), 0], [0, 0], [0, 0]].map List.length).sum = (2 : ℤ).toNat * (3 : ℤ).toNat
    ∧ metaLookup [("crs", MetaValue.crsValue (some "EPSG:4326")),
        ("width", MetaValue.num 2), ("height", MetaValue.num 3)] "width"
      = some (.num ((2 : ℤ) : ℚ))
    ∧ metaLookup [("crs", MetaValue.crsValue (some "EPSG:4326")),
        ("width", MetaValue.num 2), ("height", MetaValue.num 3)] "height"
      = some (.num ((3 : ℤ) : ℚ)) :=
  C5_grid_size solver0 sampleData "t" (2, 3) (0, 1, 0, 1) .linear .ordinary
    ["regional_linear"] [[0, 0], [0, 0], [0, 0]]
    [("crs", MetaValue.crsValue (some "EPSG:4326")),
     ("width", MetaValue.num 2), ("height", MetaValue.num 3)] (by decide)

/-- C6: in mode (a) (no base profile) the grid frame is derived from the
bounding extent: width `(max_x - min_x)/r`, height `(max_y - min_y)/r`, and
the transform anchored at the extent's bounds; in mode (b) (a base profile
supplied) `_rasterize_vector` returns the profile's transform, height and
width unchanged. -/
theorem C6_grid_frame (gdf : GeoDataFrame) (r : ℚ) (p : Profile)
    (vc : Option String) (dv fv : ℚ)
    (_h1 : gdf.numRows ≠ 0) (_h2 : 0 < r) :
    ((_transform_from_geometries gdf r).1
        = (gdf.totalBounds.2.2.1 - gdf.totalBounds.1) / r)
    ∧ ((_transform_from_geometries gdf r).2.1
        = (gdf.totalBounds.2.2.2 - gdf.totalBounds.2.1) / r)
    ∧ ((_transform_from_geometries gdf r).2.2
        = from_bounds gdf.totalBounds.1 gdf.totalBounds.2.1 gdf.totalBounds.2.2.1
            gdf.totalBounds.2.2.2 ((gdf.totalBounds.2.2.1 - gdf.totalBounds.1) / r)
            ((gdf.totalBounds.2.2.2 - gdf.totalBounds.2.1) / r))
    ∧ ((_rasterize_vector gdf vc dv fv (some p) r).2
        = [("transform", .affine p.transform), ("height", .num p.height),
           ("width", .num p.width)]) :=
  ⟨rfl, rfl, rfl, rfl⟩

/-- A base profile used to exercise mode (b). -/
def baseProfile0 : Profile := ⟨4, 3, ⟨1, 0, 0, 0, -1, 3⟩⟩

/-- C6 witness: the grid frame of `rectGdf` at resolution 2, and mode (b)
pass-through of `baseProfile0`. -/
theorem C6_grid_frame_witness :
    ((_transform_from_geometries rectGdf 2).1
        = (rectGdf.totalBounds.2.2.1 - rectGdf.totalBounds.1) / 2)
    ∧ ((_transform_from_geometries rectGdf 2).2.1
        = (rectGdf.totalBounds.2.2.2 - rectGdf.totalBounds.2.1) / 2)
    ∧ ((_transform_from_geometries rectGdf 2).2.2
        = from_bounds rectGdf.totalBounds.1 rectGdf.totalBounds.2.1
            rectGdf.totalBounds.2.2.1 rectGdf.totalBounds.2.2.2
            ((rectGdf.totalBounds.2.2.1 - rectGdf.totalBounds.1) / 2)
            ((rectGdf.totalBounds.2.2.2 - rectGdf.totalBounds.2.1) / 2))
    ∧ ((_rasterize_vector rectGdf (some "v") 1 0 (some baseProfile0) 2).2
        = [("transform", .affine baseProfile0.transform),
           ("height", .num baseProfile0.height),
           ("width", .num baseProfile0.width)]) :=
  C6_grid_frame rectGdf 2 baseProfile0 (some "v") 1 0 (by decide) (by decide)

/-- C9: the kriging extent is read as (x_min, x_max, y_min, y_max) — the x
grid spans `extent.1` to `extent.2.1` and the y grid spans `extent.2.2.1` to
`extent.2.2.2` — whereas the grid-frame deriver reads its bounds tuple as
(min_x, min_y, max_x, max_y): the transform's x origin is component 1 and
its y origin component 4 of `totalBounds`. -/
theorem C9_extent_axis_order (extent : ℚ × ℚ × ℚ × ℚ) (res : ℤ × ℤ)
    (gdf : GeoDataFrame) (r : ℚ) (h1 : 2 ≤ res.1) (h2 : 2 ≤ res.2) :
    (krigingGridX extent res).head? = some extent.1
    ∧ (krigingGridX extent res).getLast? = some extent.2.1
    ∧ (krigingGridY extent res).head? = some extent.2.2.1
    ∧ (krigingGridY extent res).getLast? = some extent.2.2.2
    ∧ ((_transform_from_geometries gdf r).2.2).c = gdf.totalBounds.1
    ∧ ((_transform_from_geometries gdf r).2.2).f = gdf.totalBounds.2.2.2 := by
  have hx : 2 ≤ res.1.toNat := by omega
  have hy : 2 ≤ res.2.toNat := by omega
  exact ⟨np_linspace_head _ _ _ hx, np_linspace_getLast _ _ _ hx,
    np_linspace_head _ _ _ hy, np_linspace_getLast _ _ _ hy, rfl, rfl⟩

/-- C9 witness: extent (1, 2, 3, 4) at resolution (2, 3), and the deriver's
anchoring for `rectGdf`. -/
theorem C9_extent_axis_order_witness :
    (krigingGridX (1, 2, 3, 4) (2, 3)).head? = some 1
    ∧ (krigingGridX (1, 2, 3, 4) (2, 3)).getLast? = some 2
    ∧ (krigingGridY (1, 2, 3, 4) (2, 3)).head? = some 3
    ∧ (krigingGridY (1, 2, 3, 4) (2, 3)).getLast? = some 4
    ∧ ((_transform_from_geometries rectGdf 1).2.2).c = rectGdf.totalBounds.1
    ∧ ((_transform_from_geometries rectGdf 1).2.2).f = rectGdf.totalBounds.2.2.2 :=
  C9_extent_axis_order (1, 2, 3, 4) (2, 3) rectGdf 1 (by decide) (by decide)

/-- C10: without a base profile, the returned array has shape
`(round height, round width)` under Python's half-to-even `round`, while the
metadata carries the unrounded `width` and `height`; hence whenever `width`
or `height` is non-integral the metadata value differs from the
corresponding array dimension. -/
theorem C10_rounded_shape (gdf : GeoDataFrame) (res : ℚ) (vc : Option String)
    (dv fv : ℚ) (arr : List (List ℚ)) (meta : Metadata) (s : GeoDataFrame)
    (hok : rasterize_vector gdf res vc dv fv none none = (.ok (arr, meta), s)) :
    arr.length = (pythonRound (_transform_from_geometries gdf res).2.1).toNat
    ∧ (∀ row ∈ arr,
        row.length = (pythonRound (_transform_from_geometries gdf res).1).toNat)
    ∧ metaLookup meta "width" = some (.num (_transform_from_geometries gdf res).1)
    ∧ metaLookup meta "height" = some (.num (_transform_from_geometries gdf res).2.1)
    ∧ ((∀ z : ℤ, (_transform_from_geometries gdf res).1 ≠ (z : ℚ)) →
        ((pythonRound (_transform_from_geometries gdf res).1).toNat : ℚ)
          ≠ (_transform_from_geometries gdf res).1)
    ∧ ((∀ z : ℤ, (_transform_from_geometries gdf res).2.1 ≠ (z : ℚ)) →
        ((pythonRound (_transform_from_geometries gdf res).2.1).toNat : ℚ)
          ≠ (_transform_from_geometries gdf res).2.1) := by
  obtain ⟨-, -, -, -, -, hr⟩ :=
    rasterize_vector_ok gdf res vc dv fv none none (arr, meta) s hok
  have harr : arr = features_rasterize (geometryValuePairs gdf vc dv) fv
      (_transform_from_geometries gdf res).2.2
      ((pythonRound (_transform_from_geometries gdf res).2.1).toNat,
       (pythonRound (_transform_from_geometries gdf res).1).toNat) :=
    congrArg Prod.fst hr
  have hmeta : meta
      = [("transform", .affine (_transform_from_geometries gdf res).2.2),
         ("height", .num (_transform_from_geometries gdf res).2.1),
         ("width", .num (_transform_from_geometries gdf res).1)] :=
    congrArg Prod.snd hr
  refine ⟨?_, ?_, ?_, ?_, ?_, ?_⟩
  · rw [harr]
    unfold features_rasterize
    simp
  · intro row hm
    rw [harr] at hm
    unfold features_rasterize at hm
    obtain ⟨i, -, rfl⟩ := List.mem_map.mp hm
    simp
  · rw [hmeta]
    rfl
  · rw [hmeta]
    rfl
  · intro hni heq
    exact hni ((pythonRound (_transform_from_geometries gdf res).1).toNat : ℤ)
      (by exact_mod_cast heq.symm)
  · intro hni heq
    exact hni ((pythonRound (_transform_from_geometries gdf res).2.1).toNat : ℤ)
      (by exact_mod_cast heq.symm)

/-- C10 witness: the (0,0)–(5,3) rectangle at resolution 2 gives width 5/2
and height 3/2; the array is 2 × 2 (both round to 2) while the metadata
keeps 5/2 and 3/2, which differ from 2. -/
theorem C10_rounded_shape_witness :
    ((rasterize_vector slabGdf 2 none 5 0 none none).1
      = .ok ([[5, 5], [5, 5]],
        [("transform", .affine ⟨2, 0, 0, 0, -2, 3⟩),
         ("height", .num (3 / 2)), ("width", .num (5 / 2))]))
    ∧ ((pythonRound (_transform_from_geometries slabGdf 2).1).toNat : ℚ)
        ≠ (_transform_from_geometries slabGdf 2).1 := by
  have hw : (_transform_from_geometries slabGdf 2).1 = 5 / 2 := by decide
  refine ⟨by decide, ?_⟩
  refine (C10_rounded_shape slabGdf 2 none 5 0 [[5, 5], [5, 5]]
    [("transform", .affine ⟨2, 0, 0, 0, -2, 3⟩),
     ("height", .num (3 / 2)), ("width", .num (5 / 2))] slabGdf
    (by decide)).2.2.2.2.1 ?_
  intro z hz
  rw [hw] at hz
  have h1 : ((2 : ℤ) : ℚ) < (z : ℚ) := by rw [← hz]; norm_num
  have h2 : (z : ℚ) < ((3 : ℤ) : ℚ) := by rw [← hz]; norm_num
  rw [Int.cast_lt] at h1 h2
  omega

/-- C7: rasterization is deterministic and, at any in-range cell, returns
the value of the last geometry–value pair (in the geodataframe's iteration
order) whose geometry covers the cell center. -/
theorem C7_overlap_last_wins (gdf : GeoDataFrame) (res : ℚ) (vc : Option String)
    (dv fv : ℚ) (base : Option Profile) (arr : List (List ℚ)) (meta : Metadata)
    (s : GeoDataFrame) (row col : ℕ) (g : Geometry) (v : ℚ)
    (hok : rasterize_vector gdf res vc dv fv base none = (.ok (arr, meta), s))
    (hrow : row < (pythonRound (resolvedFrame gdf base res).2.1).toNat)
    (hcol : col < (pythonRound (resolvedFrame gdf base res).1).toNat)
    (hlast : ((geometryValuePairs gdf vc dv).filter
        (fun gv => gv.1.containsPoint
          (cellCenter (resolvedFrame gdf base res).2.2 row col).1
          (cellCenter (resolvedFrame gdf base res).2.2 row col).2)).getLast?
      = some (g, v)) :
    gridCell arr row col = some v := by
  obtain ⟨-, -, -, -, -, hr⟩ :=
    rasterize_vector_ok gdf res vc dv fv base none (arr, meta) s hok
  have harr : arr = features_rasterize (geometryValuePairs gdf vc dv) fv
      (resolvedFrame gdf base res).2.2
      ((pythonRound (resolvedFrame gdf base res).2.1).toNat,
       (pythonRound (resolvedFrame gdf base res).1).toNat) :=
    congrArg Prod.fst hr
  rw [harr, features_rasterize_cell _ _ _ _ _ _ _ hrow hcol,
    burnCell_eq_getLast, hlast]
  rfl

/-- C7 witness: two overlapping squares with values 1 then 2; the overlap
cell (row 1, col 1) holds 2, the value of the last-listed geometry. -/
theorem C7_overlap_last_wins_witness :
    gridCell [[0, 2, 2], [1, 2, 2], [1, 1, 0]] 1 1 = some 2 :=
  C7_overlap_last_wins overlapGdf 1 (some "v") 1 0 none
    [[0, 2, 2], [1, 2, 2], [1, 1, 0]]
    [("transform", .affine ⟨1, 0, 0, 0, -1, 3⟩), ("height", .num 3),
     ("width", .num 3)]
    overlapGdf 1 1 ⟨.rect 1 1 3 3, 0⟩ 2
    (by decide) (by decide) (by decide) (by decide)

/-- C8: with a uniform burn value, every in-range cell whose center is
covered by some geometry holds `default_value` and every cell whose center
is covered by no geometry holds `fill_value`. -/
theorem C8_fill_and_default (gdf : GeoDataFrame) (res dv fv : ℚ)
    (base : Option Profile) (arr : List (List ℚ)) (meta : Metadata)
    (s : GeoDataFrame) (row col : ℕ)
    (hok : rasterize_vector gdf res none dv fv base none = (.ok (arr, meta), s))
    (hrow : row < (pythonRound (resolvedFrame gdf base res).2.1).toNat)
    (hcol : col < (pythonRound (resolvedFrame gdf base res).1).toNat) :
    (gdf.geometries.any (fun g => g.containsPoint
        (cellCenter (resolvedFrame gdf base res).2.2 row col).1
        (cellCenter (resolvedFrame gdf base res).2.2 row col).2) = true →
      gridCell arr row col = some dv)
    ∧ (gdf.geometries.any (fun g => g.containsPoint
        (cellCenter (resolvedFrame gdf base res).2.2 row col).1
        (cellCenter (resolvedFrame gdf base res).2.2 row col).2) = false →
      gridCell arr row col = some fv) := by
  obtain ⟨-, -, -, -, -, hr⟩ :=
    rasterize_vector_ok gdf res none dv fv base none (arr, meta) s hok
  have harr : arr = features_rasterize (geometryValuePairs gdf none dv) fv
      (resolvedFrame gdf base res).2.2
      ((pythonRound (resolvedFrame gdf base res).2.1).toNat,
       (pythonRound (resolvedFrame gdf base res).1).toNat) :=
    congrArg Prod.fst hr
  have hpairs : geometryValuePairs gdf none dv
      = gdf.geometries.map (fun g => (g, dv)) := rfl
  constructor
  · intro hcover
    rw [harr, features_rasterize_cell _ _ _ _ _ _ _ hrow hcol, hpairs,
      burnCell_map_const, if_pos hcover]
  · intro hcover
    rw [harr, features_rasterize_cell _ _ _ _ _ _ _ hrow hcol, hpairs,
      burnCell_map_const, if_neg (by simp [hcover])]

/-- C8 witness: the spec's example — one square polygon covering
(0,0)–(10,10) rasterized at resolution 1 with `default_value = 5` and
`fill_value = 0` yields a 10×10 array of 5s; the covered cell (3, 4) holds
5 by the theorem. -/
theorem C8_fill_and_default_witness :
    ((rasterize_vector squareGdf 1 none 5 0 none none).1
      = .ok (List.replicate 10 (List.replicate 10 (5 : ℚ)),
        [("transform", .affine ⟨1, 0, 0, 0, -1, 10⟩), ("height", .num 10),
         ("width", .num 10)]))
    ∧ gridCell (List.replicate 10 (List.replicate 10 (5 : ℚ))) 3 4 = some 5 :=
  ⟨by decide,
   (C8_fill_and_default squareGdf 1 5 0 none
      (List.replicate 10 (List.replicate 10 (5 : ℚ)))
      [("transform", .affine ⟨1, 0, 0, 0, -1, 10⟩), ("height", .num 10),
       ("width", .num 10)]
      squareGdf 3 4 (by decide) (by decide) (by decide)).1 (by decide)⟩

end EisToolkit
